import Mathlib

/-!
Verification development for the ai-merge-analyzer repository.

The repository is a CI-time code-review assistant with four Python source
files.  This file gives a shallow embedding of the pieces of the code that
the specification talks about:

  * the Issue Extractor, `parse_ai_issues` in `ai_postprocess.py`;
  * the Diff Indexer, `get_valid_diff_lines` in `diff_parser.py`, together
    with the slice of the external `unidiff` library that it calls into
    (modelled below, see the comments on the `PatchSet` section);
  * the validator loop of `post_inline_comments.py`;
  * the orchestrator `analyze_merge_issues` in `analyze_diff.py`.

Python strings are modelled as `List Char` internally (ASCII scope: the
whitespace class of the regex module and of string methods is modelled by
its ASCII subset, and line splitting is modelled for the newline character,
which covers every input handled in this development).  Python exceptions
are modelled by `Except String`.
-/

/- == Python string primitives ============================================ -/

/-- ASCII subset of the Python regex whitespace class and of the default
character set stripped by the string method that trims whitespace. -/
def pyWs (c : Char) : Bool :=
  c = ' ' || c = '\t' || c = '\n' || c = '\r' || c = '\x0b' || c = '\x0c'

/-- Trim whitespace from both ends, as the Python string strip method. -/
def pyStrip (cs : List Char) : List Char :=
  ((cs.dropWhile pyWs).reverse.dropWhile pyWs).reverse

/-- Remainder of the current line: the maximal run of characters up to the
next newline.  This is what an unanchored greedy dot-plus group captures in
the Python regex module when the dot does not match newlines. -/
def takeLine (cs : List Char) : List Char :=
  cs.takeWhile (fun c => c ≠ '\n')

/-- Numeric value of a digit string, as the Python int constructor applied
to a string of decimal digits. -/
def digitsToNat (ds : List Char) : Nat :=
  ds.foldl (fun n c => 10 * n + (c.toNat - '0'.toNat)) 0

/- == Issue Extractor: parse_ai_issues (ai_postprocess.py) ================ -/

/-- Capture of the regex tail consisting of a greedy whitespace-star group
followed by a parenthesised greedy dot-plus group, at the start of `cs`
(the text following a label such as `File:`).  The whitespace-star group is
greedy and backtracks: the capture starts at the first non-whitespace
character when one exists, and otherwise backtracks to the last
non-newline whitespace character of the input. -/
def matchWsDotPlus : List Char → Option (List Char)
  | [] => none
  | c :: rest =>
    if pyWs c then
      match matchWsDotPlus rest with
      | some cap => some cap
      | none => if c = '\n' then none else some (takeLine (c :: rest))
    else some (takeLine (c :: rest))

/-- Capture of the regex tail consisting of a whitespace-star group
followed by a parenthesised digits-plus group, at the start of `cs`.
Backtracking into the whitespace is useless here because a whitespace
character is never a digit, so the capture, when any, is the maximal digit
run after the leading whitespace. -/
def matchWsDigits : List Char → Option (List Char)
  | [] => none
  | c :: rest =>
    if pyWs c then matchWsDigits rest
    else if c.isDigit then some ((c :: rest).takeWhile Char.isDigit)
    else none

/-- Unanchored regex search: scan positions left to right, and at the first
position where `label` occurs and the tail matcher `m` succeeds on the text
after the label, return the capture of `m`.  This models a search call of
the Python regex module for a pattern of the form label-then-tail. -/
def reSearch (label : List Char) (m : List Char → Option (List Char)) :
    List Char → Option (List Char)
  | [] => none
  | c :: rest =>
    match (if label.isPrefixOf (c :: rest)
           then m ((c :: rest).drop label.length) else none) with
    | some cap => some cap
    | none => reSearch label m rest

/-- Structured issue record produced by the extractor.  The line number is
an integer because the Python int constructor produces one; the captured
text for it is a digit run, so the value is in fact non-negative. -/
structure Issue where
  file : String
  line : Int
  problem : String
  why : String
  solution : String
deriving DecidableEq

/-- Blocks of the report: the segments obtained by splitting the text at
every occurrence of three consecutive hyphens (leftmost, non-overlapping),
exactly as the Python string split method with a three-hyphen separator
behaves in `parse_ai_issues`. -/
def splitDashes : List Char → List (List Char)
  | [] => [[]]
  | '-' :: '-' :: '-' :: rest => [] :: splitDashes rest
  | c :: rest =>
    match splitDashes rest with
    | [] => [[c]]
    | b :: bs => (c :: b) :: bs

/-- Processing of one block of the report, from the body of the loop in
`parse_ai_issues`: five unanchored regex searches, and an issue record is
built exactly when the file, line and problem searches all succeed. -/
def parseBlock (b : List Char) : Option Issue :=
  match reSearch "File:".data matchWsDotPlus b,
        reSearch "Line:".data matchWsDigits b,
        reSearch "Problem:".data matchWsDotPlus b with
  | some f, some ds, some p =>
    some { file := (pyStrip f).asString
           line := (digitsToNat ds : Int)
           problem := (pyStrip p).asString
           why := ((reSearch "Why:".data matchWsDotPlus b).map
                     (fun w => (pyStrip w).asString)).getD ""
           solution := ((reSearch "Solution:".data matchWsDotPlus b).map
                     (fun s => (pyStrip s).asString)).getD "" }
  | _, _, _ => none

/-- The Issue Extractor, `parse_ai_issues` of `ai_postprocess.py`: split
the report at every occurrence of three hyphens and collect, in order, the
issue records of the blocks that yield one. -/
def parse_ai_issues (report_text : String) : List Issue :=
  (splitDashes report_text.data).filterMap parseBlock

/- == Diff Indexer: get_valid_diff_lines (diff_parser.py) ================= -/

/-!
`diff_parser.py` imports `PatchSet` from the external `unidiff` library and
iterates the parsed patch.  The slice of `unidiff` that this call exercises
is modelled here, faithful to the library for plain unified diffs: the
source and target filename headers, the hunk range header, hunk body lines
tagged context, added, removed or no-newline-marker, the new-file line
numbering that increments for context and added lines only, and the parse
errors for a hunk body line of unknown shape and for truncated or
overlong hunks.  Git extended headers, binary-diff markers and other
unmatched lines are skipped as patch metadata, as the library does.
The spec (section 4.1) describes the same grammar.  Crucially, the line
objects of the library carry exactly the three boolean attributes
`is_added`, `is_removed` and `is_context`; any other attribute lookup
raises an AttributeError, modelled through `lineGetAttr` below.
-/

/-- Tag of one hunk body line. -/
inductive LineType
  | context
  | added
  | removed
  | noNewline
deriving DecidableEq

/-- One hunk body line as the unidiff library represents it: the tag, the
text after the tag character, and the optional old-side and new-side line
numbers (absent when the line does not exist on that side). -/
structure DiffLine where
  line_type : LineType
  value : String
  source_line_no : Option Nat := none
  target_line_no : Option Nat := none
deriving DecidableEq

/-- One hunk: the four numbers of the range header and the body lines. -/
structure Hunk where
  source_start : Nat
  source_length : Nat
  target_start : Nat
  target_length : Nat
  lines : List DiffLine
deriving DecidableEq

/-- One file segment of the patch: the two header paths and the hunks. -/
structure PatchedFile where
  source_file : String
  target_file : String
  hunks : List Hunk
deriving DecidableEq

/-- The path property of a patched file in the unidiff library: abstract
the conventional prefixes of the two header paths, preferring the old-side
name. -/
def PatchedFile.path (f : PatchedFile) : String :=
  if ("a/".data.isPrefixOf f.source_file.data && "b/".data.isPrefixOf f.target_file.data) then
    (f.source_file.data.drop 2).asString
  else if ("a/".data.isPrefixOf f.source_file.data && f.target_file = "/dev/null") then
    (f.source_file.data.drop 2).asString
  else if ("b/".data.isPrefixOf f.target_file.data && f.source_file = "/dev/null") then
    (f.target_file.data.drop 2).asString
  else f.source_file

/-- Split at every newline character. -/
def splitNl : List Char → List (List Char)
  | [] => [[]]
  | '\n' :: rest => [] :: splitNl rest
  | c :: rest =>
    match splitNl rest with
    | [] => [[c]]
    | l :: ls => (c :: l) :: ls

/-- The Python splitlines method for newline-separated text: each newline
terminates a line, so text ending in a newline yields no trailing empty
line. -/
def pySplitlines (cs : List Char) : List (List Char) :=
  let ps := splitNl cs
  if ps.getLast? = some [] then ps.dropLast else ps

/-- Maximal run of decimal digits at the front, with the remaining text;
fails when there is no leading digit (the digits-plus group of the hunk
header regex). -/
def parseDigits (cs : List Char) : Option (Nat × List Char) :=
  let ds := cs.takeWhile Char.isDigit
  if ds = [] then none else some (digitsToNat ds, cs.drop ds.length)

/-- One range of the hunk header: digits, optionally followed by a comma
and a second digit run; the length defaults to one when absent, as in the
unidiff hunk constructor. -/
def parseRange (cs : List Char) : Option (Nat × Nat × List Char) :=
  match parseDigits cs with
  | none => none
  | some (a, rest) =>
    match rest with
    | ',' :: rest2 =>
      match parseDigits rest2 with
      | none => none
      | some (b, rest3) => some (a, b, rest3)
    | _ => some (a, 1, rest)

/-- The hunk header regex of unidiff: at-at, space, minus, old range,
space, plus, new range, space, at-at, then arbitrary section text.
Returns (source start, source length, target start, target length). -/
def parseHunkHeader (l : List Char) : Option (Nat × Nat × Nat × Nat) :=
  match l with
  | '@' :: '@' :: ' ' :: '-' :: cs =>
    match parseRange cs with
    | none => none
    | some (ss, sl, rest) =>
      match rest with
      | ' ' :: '+' :: cs2 =>
        match parseRange cs2 with
        | none => none
        | some (ts, tl, rest2) =>
          match rest2 with
          | ' ' :: '@' :: '@' :: _ => some (ss, sl, ts, tl)
          | _ => none
      | _ => none
  | _ => none

/-- The source filename header regex of unidiff: three minus signs and a
space, then a nonempty filename running to the first tab (a tab starts the
optional timestamp field). -/
def parseSourceFile (l : List Char) : Option (List Char) :=
  match l with
  | '-' :: '-' :: '-' :: ' ' :: rest =>
    let fn := rest.takeWhile (fun c => c ≠ '\t')
    if fn = [] then none else some fn
  | _ => none

/-- The target filename header regex of unidiff: three plus signs and a
space, then a nonempty filename running to the first tab. -/
def parseTargetFile (l : List Char) : Option (List Char) :=
  match l with
  | '+' :: '+' :: '+' :: ' ' :: rest =>
    let fn := rest.takeWhile (fun c => c ≠ '\t')
    if fn = [] then none else some fn
  | _ => none

/-- Shape of one hunk body line: the tag character followed by the value.
A fully empty line matches the empty-body-line regex of unidiff and is
treated as a context line.  Any other shape is not a valid hunk body
line. -/
def classifyBody (l : List Char) : Option (LineType × List Char) :=
  match l with
  | [] => some (LineType.context, [])
  | ' ' :: v => some (LineType.context, v)
  | '+' :: v => some (LineType.added, v)
  | '-' :: v => some (LineType.removed, v)
  | '\\' :: v => some (LineType.noNewline, v)
  | _ => none

/-- Parser mode: between file sections, or inside a hunk body.  Inside a
hunk the mode carries the file under construction, the four header
numbers, the running old-side and new-side line counters and the body
lines collected so far (in reverse). -/
inductive PMode
  | top (cur : Option PatchedFile)
  | inHunk (f : PatchedFile) (ss sl ts tl srcNo tgtNo : Nat) (acc : List DiffLine)

/-- The parse loop of the unidiff PatchSet constructor, one diff line per
step.  Between sections: a source header remembers the old-side name and
closes the current file; a target header opens a new file (an error
without a preceding source header); a hunk header enters hunk mode (an
error without an open file); anything else is patch metadata and is
skipped.  Inside a hunk: each line must be a valid body line, the counters
advance by tag, a hunk running past its declared ranges is an error, and
the hunk closes as soon as both ranges are filled.  Input ending inside an
unfilled hunk is an error. -/
def runParse : List (List Char) → PMode → Option (List Char) → List PatchedFile →
    Except String (List PatchedFile)
  | [], PMode.top cur, _, done => Except.ok (done ++ cur.toList)
  | [], PMode.inHunk f ss sl ts tl srcNo tgtNo acc, _, done =>
    if ss + sl ≤ srcNo ∧ ts + tl ≤ tgtNo then
      Except.ok (done ++ [{ f with hunks := f.hunks ++ [⟨ss, sl, ts, tl, acc.reverse⟩] }])
    else Except.error "Hunk is shorter than expected"
  | l :: rest, PMode.top cur, srcF, done =>
    match parseSourceFile l with
    | some fn => runParse rest (PMode.top none) (some fn) (done ++ cur.toList)
    | none =>
      match parseTargetFile l with
      | some fn =>
        match cur, srcF with
        | some _, _ => Except.error ("Target without source: " ++ l.asString)
        | none, none => Except.error ("Target without source: " ++ l.asString)
        | none, some sf =>
          runParse rest (PMode.top (some ⟨sf.asString, fn.asString, []⟩)) none done
      | none =>
        match parseHunkHeader l with
        | some (ss, sl, ts, tl) =>
          match cur with
          | none => Except.error ("Unexpected hunk found: " ++ l.asString)
          | some f => runParse rest (PMode.inHunk f ss sl ts tl ss ts []) srcF done
        | none => runParse rest (PMode.top cur) srcF done
  | l :: rest, PMode.inHunk f ss sl ts tl srcNo tgtNo acc, srcF, done =>
    match classifyBody l with
    | none => Except.error ("Hunk diff line expected: " ++ l.asString)
    | some (t, v) =>
      let srcNo2 := match t with
        | LineType.removed | LineType.context => srcNo + 1
        | _ => srcNo
      let tgtNo2 := match t with
        | LineType.added | LineType.context => tgtNo + 1
        | _ => tgtNo
      let ln : DiffLine :=
        { line_type := t
          value := v.asString
          source_line_no := match t with
            | LineType.removed | LineType.context => some srcNo
            | _ => none
          target_line_no := match t with
            | LineType.added | LineType.context => some tgtNo
            | _ => none }
      if ss + sl < srcNo2 ∨ ts + tl < tgtNo2 then
        Except.error "Hunk is longer than expected"
      else if ss + sl ≤ srcNo2 ∧ ts + tl ≤ tgtNo2 then
        runParse rest
          (PMode.top (some { f with hunks := f.hunks ++ [⟨ss, sl, ts, tl, (ln :: acc).reverse⟩] }))
          srcF done
      else runParse rest (PMode.inHunk f ss sl ts tl srcNo2 tgtNo2 (ln :: acc)) srcF done

/-- The unidiff PatchSet constructor on the split lines of the diff text:
the list of parsed file segments, or a parse error. -/
def PatchSet (diff_content : String) : Except String (List PatchedFile) :=
  runParse (pySplitlines diff_content.data) (PMode.top none) none []

/-- Python attribute access on a unidiff line object, for the boolean
attributes.  The class defines exactly `is_added`, `is_removed` and
`is_context`; any other name raises an AttributeError. -/
def lineGetAttr (l : DiffLine) (attr : String) : Except String Bool :=
  if attr = "is_added" then Except.ok (decide (l.line_type = LineType.added))
  else if attr = "is_removed" then Except.ok (decide (l.line_type = LineType.removed))
  else if attr = "is_context" then Except.ok (decide (l.line_type = LineType.context))
  else Except.error ("AttributeError: Line object has no attribute " ++ attr)

/-- The guard of the loop in `get_valid_diff_lines`: a short-circuit
disjunction that reads `is_added` first and, only when that is false,
reads `is_modified`. -/
def lineIsAddedOrModified (l : DiffLine) : Except String Bool := do
  let a ← lineGetAttr l "is_added"
  if a then pure true else lineGetAttr l "is_modified"

/-- The Diff Indexer, `get_valid_diff_lines` of `diff_parser.py`: parse
the diff and collect into a set the (path, new-side line number) pairs of
the lines whose guard evaluates to true; exceptions propagate. -/
def get_valid_diff_lines (diff_content : String) :
    Except String (Finset (String × Option Nat)) := do
  let patch ← PatchSet diff_content
  patch.foldlM (fun acc file =>
    file.hunks.foldlM (fun acc hunk =>
      hunk.lines.foldlM (fun acc line => do
        let b ← lineIsAddedOrModified line
        pure (if b then insert (file.path, line.target_line_no) acc else acc))
        acc)
      acc)
    (∅ : Finset (String × Option Nat))

/- == Issue Validator: comment-posting loop (post_inline_comments.py) ===== -/

/-- The comment-posting loop of `post_inline_comments.py`: walk the
extracted issues in order; an issue whose (file, line) key is not in the
valid-line set is skipped and its key is printed as hallucinated, any
other issue is promoted to one inline-comment request.  The result models
the pair (issues promoted to comment requests, rejection log of skipped
keys), both in original order. -/
def validatorLoop (issues : List Issue) (valid : Finset (String × Int)) :
    List Issue × List (String × Int) :=
  match issues with
  | [] => ([], [])
  | i :: rest =>
    let r := validatorLoop rest valid
    if (i.file, i.line) ∈ valid then (i :: r.1, r.2)
    else (r.1, (i.file, i.line) :: r.2)

/- == Analysis Orchestrator: analyze_merge_issues (analyze_diff.py) ======= -/

/-- JSON values, as decoded from a provider response body. -/
inductive Json
  | null
  | bool (b : Bool)
  | num (n : Int)
  | str (s : String)
  | arr (elems : List Json)
  | obj (fields : List (String × Json))

/-- Python truthiness of a JSON-decoded value: none, false, zero and the
empty string, list and dict are falsy. -/
def pyTruthy : Json → Bool
  | Json.null => false
  | Json.bool b => b
  | Json.num n => decide (n ≠ 0)
  | Json.str s => decide (s ≠ "")
  | Json.arr xs => !xs.isEmpty
  | Json.obj kvs => !kvs.isEmpty

/-- Python dict get with default None: succeeds on a dict, returning null
for a missing key; any other receiver raises an AttributeError. -/
def pyGet (j : Json) (k : String) : Except String Json :=
  match j with
  | Json.obj kvs => Except.ok ((kvs.lookup k).getD Json.null)
  | _ => Except.error ("AttributeError: object has no attribute get (" ++ k ++ ")")

/-- Python subscript by integer position: defined on lists and strings,
out-of-range raises an IndexError, any other receiver raises a
TypeError. -/
def pyIndexN (j : Json) (i : Nat) : Except String Json :=
  match j with
  | Json.arr xs =>
    match xs.get? i with
    | some x => Except.ok x
    | none => Except.error "IndexError: list index out of range"
  | Json.str s =>
    match s.data.get? i with
    | some c => Except.ok (Json.str [c].asString)
    | none => Except.error "IndexError: string index out of range"
  | _ => Except.error "TypeError: object is not subscriptable"

/-- Python subscript by string key: defined on dicts, a missing key raises
a KeyError, any other receiver raises a TypeError. -/
def pyIndexK (j : Json) (k : String) : Except String Json :=
  match j with
  | Json.obj kvs =>
    match kvs.lookup k with
    | some v => Except.ok v
    | none => Except.error ("KeyError: " ++ k)
  | _ => Except.error "TypeError: object is not subscriptable"

mutual

/-- Serialisation of a JSON value, standing in for the Python json dump
used inside one diagnostic message (the real call pretty-prints with
indentation; only the presence of the serialised response in the message
matters here). -/
def jsonDumps : Json → String
  | Json.null => "null"
  | Json.bool true => "true"
  | Json.bool false => "false"
  | Json.num n => toString n
  | Json.str s => "\"" ++ s ++ "\""
  | Json.arr xs => "[" ++ jsonDumpsElems xs ++ "]"
  | Json.obj kvs => "\x7b" ++ jsonDumpsFields kvs ++ "\x7d"

def jsonDumpsElems : List Json → String
  | [] => ""
  | [x] => jsonDumps x
  | x :: xs => jsonDumps x ++ ", " ++ jsonDumpsElems xs

def jsonDumpsFields : List (String × Json) → String
  | [] => ""
  | [(k, v)] => "\"" ++ k ++ "\": " ++ jsonDumps v
  | (k, v) :: kvs => "\"" ++ k ++ "\": " ++ jsonDumps v ++ ", " ++ jsonDumpsFields kvs

end

/-- Content extraction for the gemini provider, from `analyze_merge_issues`:
the guarded descent through candidates, content and parts; when one of the
guards is falsy the analysis text stays the empty string.  A lookup or
subscript on a value of the wrong shape raises, and the exception is
caught by the surrounding generic handler. -/
def extractGemini (result : Json) : Except String Json := do
  let c ← pyGet result "candidates"
  if pyTruthy c = false then pure (Json.str "")
  else do
    let c0 ← pyIndexN c 0
    let content ← pyGet c0 "content"
    if pyTruthy content = false then pure (Json.str "")
    else do
      let parts ← pyGet content "parts"
      if pyTruthy parts = false then pure (Json.str "")
      else do
        let p0 ← pyIndexN parts 0
        pyIndexK p0 "text"

/-- Content extraction for the openai provider, from
`analyze_merge_issues`: the guarded descent through choices, message and
content. -/
def extractOpenai (result : Json) : Except String Json := do
  let c ← pyGet result "choices"
  if pyTruthy c = false then pure (Json.str "")
  else do
    let c0 ← pyIndexN c 0
    let msg ← pyGet c0 "message"
    if pyTruthy msg = false then pure (Json.str "")
    else do
      let content ← pyGet msg "content"
      if pyTruthy content = false then pure (Json.str "")
      else pure content

/-- Join lines with newline separators (the Python join used to rebuild
the report body). -/
def joinNl : List (List Char) → List Char
  | [] => []
  | [l] => l
  | l :: ls => l ++ '\n' :: joinNl ls

/-- Substring containment: whether `pat` occurs contiguously in the text
(the Python membership test of one string inside another). -/
def containsSeq (pat : List Char) : List Char → Bool
  | [] => pat.isPrefixOf []
  | c :: rest => pat.isPrefixOf (c :: rest) || containsSeq pat rest

/-- The status-inference fallback of `analyze_merge_issues`, applied when
the last line carries no explicit status: infer PASS when one of three
reassuring phrases occurs in the lowercased analysis text, otherwise keep
the FAIL default. -/
def inferStatus (analysis : List Char) : String :=
  let low := analysis.map Char.toLower
  if (containsSeq "no obvious issues".data low
      || containsSeq "no significant issues".data low
      || containsSeq "looks good to merge".data low) then "PASS"
  else "FAIL"

/-- The report/status split of `analyze_merge_issues`: when the last line
of the analysis text contains the status marker, read PASS or FAIL from
the uppercased stripped last line (FAIL being also the default) and strip
the status line off the report; otherwise return the text unchanged with
the inferred status. -/
def parseStatusLine (analysis_text : String) : String × String :=
  let ls := pySplitlines analysis_text.data
  match ls.getLast? with
  | none => (analysis_text, inferStatus analysis_text.data)
  | some last =>
    if containsSeq "Overall Status:".data last then
      let upper := (pyStrip last).map Char.toUpper
      let status :=
        if containsSeq "PASS".data upper then "PASS"
        else if containsSeq "FAIL".data upper then "FAIL"
        else "FAIL"
      ((pyStrip (joinNl ls.dropLast)).asString, status)
    else (analysis_text, inferStatus analysis_text.data)

/-- What the single HTTP POST of `analyze_merge_issues` can come back
with: a raised transport exception (network failure, timeout), or a
response with a status code, a body that either is or is not valid JSON,
and the raw body text. -/
inductive HttpOutcome
  | exn (msg : String)
  | resp (status_code : Nat) (jsonBody : Option Json) (text : String)

/-- Message of the exception raised for an HTTP error status (the real
library formats a longer sentence from the status code and URL; only its
presence inside the caller message matters here). -/
def httpErrorMessage (status_code : Nat) : String :=
  toString status_code ++ " Error"

/-- The orchestrator `analyze_merge_issues` of `analyze_diff.py`, as a
function of its five inputs and of the outcome of the one HTTP call it
makes.  Every return path pairs a report text with a status string. -/
def analyze_merge_issues (diff_content ai_provider api_key : String)
    (_model_name _api_base_url : String) (response : HttpOutcome) : String × String :=
  if pyStrip diff_content.data = [] then
    ("Error: No branch differences provided for analysis.", "FAIL")
  else if api_key = "" then
    ("Error: API key for " ++ ai_provider ++
     " not provided. Please set the \x27ai_api_key\x27 input.", "FAIL")
  else
    let provider := (ai_provider.data.map Char.toLower).asString
    if provider = "gemini" ∨ provider = "openai" then
      match response with
      | HttpOutcome.exn e =>
        ("Error calling " ++ ai_provider ++ " API: " ++ e ++
         ". Please check network connection, API key, model name, or base URL.", "FAIL")
      | HttpOutcome.resp code body text =>
        if 400 ≤ code ∧ code < 600 then
          ("Error calling " ++ ai_provider ++ " API: " ++ httpErrorMessage code ++
           ". Please check network connection, API key, model name, or base URL.", "FAIL")
        else
          match body with
          | none =>
            ("Error: Failed to decode JSON response from " ++ ai_provider ++
             " API. Response content: " ++ text, "FAIL")
          | some result =>
            match (if provider = "gemini" then extractGemini result
                   else extractOpenai result) with
            | Except.error e =>
              ("An unexpected error occurred during analysis: " ++ e, "FAIL")
            | Except.ok analysis =>
              if pyTruthy analysis = false then
                ("No analysis result found from " ++ ai_provider ++
                 ". API Response: " ++ jsonDumps result, "FAIL")
              else
                match analysis with
                | Json.str s => parseStatusLine s
                | _ =>
                  ("An unexpected error occurred during analysis: " ++
                   "AttributeError: object has no attribute splitlines", "FAIL")
    else
      ("Error: Unsupported AI provider \x27" ++ ai_provider ++
       "\x27. Supported providers are \x27gemini\x27, \x27openai\x27.", "FAIL")

/- == Refinement comparison definition for claim C4 ======================= -/

/-- Inverse of the block split: join blocks back with the three-hyphen
separator. -/
def joinDashes : List (List Char) → List Char
  | [] => []
  | [b] => b
  | b :: bs => b ++ '-' :: '-' :: '-' :: joinDashes bs

/-- Modelled from the spec words, for comparison with the code only (claim
C4): blocks delimited by a LINE consisting solely of three hyphens — split
the text into lines, cut at the lines equal to the delimiter, and rejoin
each group of lines. -/
def specDelimBlocks (cs : List Char) : List (List Char) :=
  ((splitNl cs).splitOnP (fun l => decide (l = "---".data))).map joinNl

/- == Shared instances and helper lemmas ================================== -/

instance decEqExcept {ε α : Type} [DecidableEq ε] [DecidableEq α] :
    DecidableEq (Except ε α) := fun a b =>
  match a, b with
  | Except.error e, Except.error f =>
    if h : e = f then Decidable.isTrue (by rw [h])
    else Decidable.isFalse (by simp [h])
  | Except.error _, Except.ok _ => Decidable.isFalse (by simp)
  | Except.ok _, Except.error _ => Decidable.isFalse (by simp)
  | Except.ok a, Except.ok b =>
    if h : a = b then Decidable.isTrue (by rw [h])
    else Decidable.isFalse (by simp [h])

theorem splitDashes_ne_nil (cs : List Char) : splitDashes cs ≠ [] := by
  induction cs using splitDashes.induct with
  | case1 => simp [splitDashes]
  | case2 rest ih => simp [splitDashes]
  | case3 c rest h hm => simp [splitDashes]; split <;> simp
  | case4 c rest h ih hm => simp [splitDashes]; split <;> simp

theorem joinDashes_cons (c : Char) (b : List Char) (bs : List (List Char)) :
    joinDashes ((c :: b) :: bs) = c :: joinDashes (b :: bs) := by
  cases bs <;> simp [joinDashes]

theorem joinDashes_head (b : List Char) (bs : List (List Char)) :
    ∃ t, joinDashes (b :: bs) = b ++ t := by
  cases bs with
  | nil => exact ⟨[], by simp [joinDashes]⟩
  | cons b2 bs2 => exact ⟨'-' :: '-' :: '-' :: joinDashes (b2 :: bs2), rfl⟩

theorem splitDashes_cons_eq (c : Char) (rest : List Char)
    (h : ∀ (r : List Char), c = '-' → rest = '-' :: '-' :: r → False)
    (b : List Char) (bs : List (List Char)) (hm : splitDashes rest = b :: bs) :
    splitDashes (c :: rest) = (c :: b) :: bs := by
  rw [splitDashes.eq_def]
  split
  · rename_i heq; cases heq
  · rename_i r heq
    injection heq with h1 h2
    exact absurd (h r h1 h2) (by simp)
  · rename_i c2 r2 hne heq
    injection heq with h1 h2
    subst h1; subst h2
    rw [hm]

theorem splitDashes_join (cs : List Char) : joinDashes (splitDashes cs) = cs := by
  induction cs using splitDashes.induct with
  | case1 => rfl
  | case2 rest ih =>
    have h := splitDashes_ne_nil rest
    cases h2 : splitDashes rest with
    | nil => exact absurd h2 h
    | cons b bs => simp_all [splitDashes, joinDashes]
  | case3 c rest h hm ih => exact absurd hm (splitDashes_ne_nil rest)
  | case4 c rest h b bs hm ih =>
    rw [splitDashes_cons_eq c rest h b bs hm, joinDashes_cons, ← hm, ih]

theorem splitDashes_no_delim (cs : List Char) :
    ∀ b ∈ splitDashes cs, containsSeq "---".data b = false := by
  induction cs using splitDashes.induct with
  | case1 =>
    intro b hb
    rw [show splitDashes [] = [[]] from rfl] at hb
    rcases List.mem_singleton.mp hb with rfl
    rfl
  | case2 rest ih =>
    intro b hb
    rw [show splitDashes ('-' :: '-' :: '-' :: rest) = [] :: splitDashes rest from by
        simp [splitDashes]] at hb
    rcases List.mem_cons.mp hb with rfl | hb2
    · rfl
    · exact ih b hb2
  | case3 c rest h hm ih => exact absurd hm (splitDashes_ne_nil rest)
  | case4 c rest h b0 bs hm ih =>
    intro b hb
    rw [splitDashes_cons_eq c rest h b0 bs hm] at hb
    rcases List.mem_cons.mp hb with rfl | hb2
    · have hb0 : containsSeq "---".data b0 = false := by
        refine ih b0 ?_
        rw [hm]
        exact List.mem_cons_self _ _
      have hpre : "---".data.isPrefixOf (c :: b0) = false := by
        by_contra hco
        rw [Bool.not_eq_false, List.isPrefixOf_iff_prefix] at hco
        obtain ⟨t, ht⟩ := hco
        injection ht with e1 e2
        obtain ⟨t2, ht2⟩ := joinDashes_head b0 bs
        have hrest : rest = b0 ++ t2 := by
          rw [← splitDashes_join rest, hm, ht2]
        refine h (t ++ t2) e1.symm ?_
        rw [hrest, ← e2]
        simp
      show containsSeq "---".data (c :: b0) = false
      rw [containsSeq, hpre, hb0]
      rfl
    · refine ih b ?_
      rw [hm]
      exact List.mem_cons_of_mem _ hb2

theorem splitDashes_single (cs : List Char) :
    containsSeq "---".data cs = false → splitDashes cs = [cs] := by
  induction cs using splitDashes.induct with
  | case1 => intro _; rfl
  | case2 rest ih =>
    intro h
    exfalso
    have hc : containsSeq "---".data ('-' :: '-' :: '-' :: rest) = true := by
      rw [containsSeq]
      have : "---".data.isPrefixOf ('-' :: '-' :: '-' :: rest) = true := by
        rw [List.isPrefixOf_iff_prefix]
        exact ⟨rest, rfl⟩
      rw [this]
      rfl
    rw [h] at hc
    cases hc
  | case3 c rest h3 hm ih => exact absurd hm (splitDashes_ne_nil rest)
  | case4 c rest h4 b bs hm ih =>
    intro h
    have hrest : containsSeq "---".data rest = false := by
      rw [containsSeq, Bool.or_eq_false_iff] at h
      exact h.2
    have hone := ih hrest
    rw [hone] at hm
    injection hm with h1 h2
    subst h1; subst h2
    rw [splitDashes_cons_eq c rest h4 rest [] hone]

theorem pyWs_eq_false_of_isDigit (c : Char) (h : c.isDigit = true) : pyWs c = false := by
  cases hb : pyWs c with
  | false => rfl
  | true =>
    exfalso
    rw [pyWs] at hb
    simp only [Bool.or_eq_true, decide_eq_true_eq] at hb
    rcases hb with ((((rfl | rfl) | rfl) | rfl) | rfl) | rfl <;> simp at h

theorem takeWhile_digits_append (ds t : List Char) (hds : ∀ c ∈ ds, c.isDigit = true)
    (ht : ∀ c ∈ t.take 1, c.isDigit = false) :
    (ds ++ t).takeWhile Char.isDigit = ds := by
  induction ds with
  | nil =>
    cases t with
    | nil => rfl
    | cons c r => simp [List.takeWhile_cons, ht c (by simp)]
  | cons d ds2 ih =>
    have hd : d.isDigit = true := hds d (List.mem_cons_self _ _)
    simp [List.takeWhile_cons, hd, ih (fun c hc => hds c (List.mem_cons_of_mem _ hc))]

theorem parseBlock_none_of_missing (b : List Char)
    (h : reSearch "File:".data matchWsDotPlus b = none ∨
         reSearch "Line:".data matchWsDigits b = none ∨
         reSearch "Problem:".data matchWsDotPlus b = none) :
    parseBlock b = none := by
  unfold parseBlock
  rcases hf : reSearch "File:".data matchWsDotPlus b with _ | f <;>
  rcases hl : reSearch "Line:".data matchWsDigits b with _ | ds <;>
  rcases hp : reSearch "Problem:".data matchWsDotPlus b with _ | p <;>
    simp_all

theorem parseBlock_line_nonneg (b : List Char) (i : Issue)
    (h : parseBlock b = some i) : 0 ≤ i.line := by
  unfold parseBlock at h
  rcases hf : reSearch "File:".data matchWsDotPlus b with _ | f <;>
  rcases hl : reSearch "Line:".data matchWsDigits b with _ | ds <;>
  rcases hp : reSearch "Problem:".data matchWsDotPlus b with _ | p <;>
    simp_all
  rw [← h]
  exact Int.natCast_nonneg _

/-- Claim C1: for every issue sequence and every anchor set, the issues the
posting loop promotes to comment requests are exactly the filter of the
input sequence by membership of the (file, line) key in the anchor set — a
subsequence of the input in original order — and the keys of all the other
issues are signalled as skipped, in order. -/
theorem c1_validator_filter (issues : List Issue) (valid : Finset (String × Int)) :
    (validatorLoop issues valid).1 =
      issues.filter (fun i => decide ((i.file, i.line) ∈ valid)) ∧
    List.Sublist (validatorLoop issues valid).1 issues ∧
    (validatorLoop issues valid).2 =
      (issues.filter (fun i => decide ((i.file, i.line) ∉ valid))).map
        (fun i => (i.file, i.line)) := by
  have hfst : ∀ l : List Issue, (validatorLoop l valid).1 =
      l.filter (fun i => decide ((i.file, i.line) ∈ valid)) := by
    intro l
    induction l with
    | nil => rfl
    | cons i rest ih =>
      by_cases h : (i.file, i.line) ∈ valid <;> simp [validatorLoop, h, ih]
  have hsnd : ∀ l : List Issue, (validatorLoop l valid).2 =
      (l.filter (fun i => decide ((i.file, i.line) ∉ valid))).map
        (fun i => (i.file, i.line)) := by
    intro l
    induction l with
    | nil => rfl
    | cons i rest ih =>
      by_cases h : (i.file, i.line) ∈ valid <;> simp [validatorLoop, h, ih]
  refine ⟨hfst issues, ?_, hsnd issues⟩
  rw [hfst issues]
  exact List.filter_sublist issues

/-- Claim C3, counterexample: a block whose File label is followed only by
whitespace running to the end of the report yields an issue whose file
field is the empty string, so the extracted issues do not all have a
non-empty file. -/
theorem c3_counterexample :
    parse_ai_issues "Line: 3\nProblem: p\nFile:   " =
      [{ file := "", line := 3, problem := "p", why := "", solution := "" }] := by
  decide

/-- Claim C3, amended: every extracted issue has a non-negative integer
line, and a block in which one of the three required fields is not found
contributes no issue; however the file and problem strings are only
whitespace-trimmed captures and can be empty (see the counterexample). -/
theorem c3_amended :
    (∀ (r : String), ∀ i ∈ parse_ai_issues r, 0 ≤ i.line) ∧
    (∀ b : List Char,
      (reSearch "File:".data matchWsDotPlus b = none ∨
       reSearch "Line:".data matchWsDigits b = none ∨
       reSearch "Problem:".data matchWsDotPlus b = none) →
      parseBlock b = none) := by
  constructor
  · intro r i hi
    obtain ⟨b, hb, hpb⟩ := List.mem_filterMap.mp hi
    exact parseBlock_line_nonneg b i hpb
  · exact parseBlock_none_of_missing

/-- Claim C3, witness for the amended theorem at concrete inputs. -/
theorem c3_amended_witness :
    0 ≤ (Issue.mk "f" 2 "p" "" "").line ∧ parseBlock "no labels here".data = none :=
  ⟨c3_amended.1 "File: f\nLine: 2\nProblem: p" (Issue.mk "f" 2 "p" "" "") (by decide),
   c3_amended.2 "no labels here".data (Or.inl (by decide))⟩

/-- Claim C4, counterexample: the extractor splits at a three-hyphen
occurrence in the middle of a line, whereas the blocks described by the
spec (delimiter lines only, computed by `specDelimBlocks`) keep such a
text as a single block. -/
theorem c4_counterexample :
    splitDashes "a---b".data = ["a".data, "b".data] ∧
    specDelimBlocks "a---b".data = ["a---b".data] := by
  constructor <;> decide

/-- Claim C4, amended: the blocks are the segments delimited by every
occurrence of the three-hyphen separator, wherever it stands: joining the
blocks with the separator restores the report, no block contains the
separator, and a report with no occurrence at all is one single block. -/
theorem c4_amended (cs : List Char) :
    joinDashes (splitDashes cs) = cs ∧
    (∀ b ∈ splitDashes cs, containsSeq "---".data b = false) ∧
    (containsSeq "---".data cs = false → splitDashes cs = [cs]) :=
  ⟨splitDashes_join cs, splitDashes_no_delim cs, splitDashes_single cs⟩

/-- Claim C4, witness for the amended theorem at concrete inputs. -/
theorem c4_amended_witness :
    joinDashes (splitDashes "a--b".data) = "a--b".data ∧
    containsSeq "---".data "a--b".data = false ∧
    splitDashes "a--b".data = ["a--b".data] :=
  ⟨(c4_amended "a--b".data).1,
   (c4_amended "a--b".data).2.1 "a--b".data (by decide),
   (c4_amended "a--b".data).2.2 (by decide)⟩

/-- Claim C5, counterexample: with the File label followed by a line
break, the captured file value is the text of the following line, so a
field value can come from a different line than its label. -/
theorem c5_counterexample :
    parse_ai_issues "File:\nfoo.py\nLine: 3\nProblem: p" =
      [{ file := "foo.py", line := 3, problem := "p", why := "", solution := "" }] := by
  decide

/-- Claim C5, amended: the whitespace skipped between the label and the
captured value includes line breaks — whenever the text after the label
holds any non-whitespace character, the capture is the remainder of the
line on which the first such character stands, regardless of how many
lines down that is. -/
theorem c5_amended (t : List Char) (h : ∃ c ∈ t, pyWs c = false) :
    matchWsDotPlus t = some (takeLine (t.dropWhile pyWs)) := by
  induction t with
  | nil => simp at h
  | cons c rest ih =>
    by_cases hc : pyWs c
    · have h2 : ∃ d ∈ rest, pyWs d = false := by
        obtain ⟨d, hd, hdw⟩ := h
        rcases List.mem_cons.mp hd with rfl | hd2
        · rw [hc] at hdw; cases hdw
        · exact ⟨d, hd2, hdw⟩
      rw [show matchWsDotPlus (c :: rest) =
            (if pyWs c then
              match matchWsDotPlus rest with
              | some cap => some cap
              | none => if c = '\n' then none else some (takeLine (c :: rest))
             else some (takeLine (c :: rest))) from rfl]
      rw [if_pos hc, ih h2, List.dropWhile_cons, if_pos hc]
    · rw [show matchWsDotPlus (c :: rest) =
            (if pyWs c then
              match matchWsDotPlus rest with
              | some cap => some cap
              | none => if c = '\n' then none else some (takeLine (c :: rest))
             else some (takeLine (c :: rest))) from rfl]
      rw [if_neg hc, List.dropWhile_cons, if_neg hc]

/-- Claim C5, witness for the amended theorem at a concrete input: the
capture after skipping a space and a line break is the following line. -/
theorem c5_amended_witness : matchWsDotPlus " \nxy".data = some "xy".data :=
  (c5_amended " \nxy".data (by decide)).trans (by decide)

/-- Claim C6, counterexample: a Line value with a digit prefix and a
non-digit suffix is not discarded — the extractor takes the digit prefix
as the line number. -/
theorem c6_counterexample :
    parse_ai_issues "File: f\nLine: 12abc\nProblem: p" =
      [{ file := "f", line := 12, problem := "p", why := "", solution := "" }] := by
  decide

/-- Claim C6, amended: a block in which no occurrence of the Line label is
followed (after optional whitespace) by a digit yields no issue; when a
digit run is present the extractor captures the maximal leading digit run
and ignores the rest of the line. -/
theorem c6_amended :
    (∀ b : List Char,
      reSearch "Line:".data matchWsDigits b = none → parseBlock b = none) ∧
    (∀ ds t : List Char, ds ≠ [] → (∀ c ∈ ds, c.isDigit = true) →
      (∀ c ∈ t.take 1, c.isDigit = false) →
      matchWsDigits (ds ++ t) = some ds) := by
  constructor
  · intro b h
    exact parseBlock_none_of_missing b (Or.inr (Or.inl h))
  · intro ds t hne hds ht
    match ds, hne with
    | d :: ds2, _ =>
      have hd : d.isDigit = true := hds d (List.mem_cons_self _ _)
      have hdw : pyWs d = false := pyWs_eq_false_of_isDigit d hd
      show matchWsDigits (d :: (ds2 ++ t)) = some (d :: ds2)
      rw [show matchWsDigits (d :: (ds2 ++ t)) =
            (if pyWs d then matchWsDigits (ds2 ++ t)
             else if d.isDigit then some ((d :: (ds2 ++ t)).takeWhile Char.isDigit)
             else none) from rfl]
      rw [hdw, if_neg (by simp), hd, if_pos rfl]
      rw [show (d :: (ds2 ++ t)) = (d :: ds2) ++ t from rfl]
      rw [takeWhile_digits_append (d :: ds2) t hds ht]

/-- Claim C6, witness for the amended theorem at concrete inputs. -/
theorem c6_amended_witness :
    parseBlock "File: f".data = none ∧ matchWsDigits "12abc".data = some "12".data :=
  ⟨c6_amended.1 "File: f".data (by decide),
   c6_amended.2 "12".data "abc".data (by decide) (by decide) (by decide)⟩

/-- Claim C7: the extractor is a total function (it is defined by
structural recursion, so it returns a sequence on every input string
without raising), and whenever every block fails to provide one of the
three required fields the result is the empty sequence. -/
theorem c7_total_and_empty (r : String)
    (h : ∀ b ∈ splitDashes r.data,
      reSearch "File:".data matchWsDotPlus b = none ∨
      reSearch "Line:".data matchWsDigits b = none ∨
      reSearch "Problem:".data matchWsDotPlus b = none) :
    parse_ai_issues r = [] := by
  unfold parse_ai_issues
  rw [List.filterMap_eq_nil_iff]
  intro b hb
  exact parseBlock_none_of_missing b (h b hb)

/-- Claim C7, witness: a delimiter-free pure prose report yields the empty
sequence. -/
theorem c7_total_and_empty_witness :
    parse_ai_issues "Nothing to report here.\nAll clear." = [] :=
  c7_total_and_empty _ (by decide)

/- == Concrete diffs used by the diff-indexer claims ====================== -/

/-- A well-formed one-file diff whose hunk holds one context line and one
added line. -/
def ctxDiffText : String :=
  "--- a/foo.py\n+++ b/foo.py\n@@ -1,1 +1,2 @@\n keep\n+new\n"

/-- A well-formed one-file diff whose hunk holds a removed line and an
added line (an edited line). -/
def remDiffText : String :=
  "--- a/bar.py\n+++ b/bar.py\n@@ -1,1 +1,1 @@\n-old\n+new\n"

/-- A malformed diff: the second body line of the hunk starts with none of
the four valid tag characters while the hunk is still open. -/
def badHunkLineDiffText : String :=
  "--- a/f.txt\n+++ b/f.txt\n@@ -1,2 +1,2 @@\n ctx\ngarbage\n"

/-- A malformed diff: a hunk header with no preceding file headers. -/
def orphanHunkDiffText : String :=
  "@@ -1 +1 @@\n x\n"

/-- A well-formed diff whose hunk holds added lines only. -/
def allAddedDiffText : String :=
  "--- a/new.py\n+++ b/new.py\n@@ -0,0 +1,2 @@\n+one\n+two\n"

/-- Supporting evaluation (no claim): on a purely-added diff the guard
never reaches the missing attribute, and the Diff Indexer returns exactly
the (new-side path, new-file line number) pairs of the added lines. -/
theorem allAdded_anchors :
    get_valid_diff_lines allAddedDiffText =
      Except.ok {("new.py", some 1), ("new.py", some 2)} := by
  decide

/-- Claim C2 (code bug): on a well-formed diff holding a context line the
Diff Indexer produces no anchor set at all: the guard of its loop reads
the attribute is_modified, which the line objects do not carry, so the
call raises an AttributeError at the first non-added line instead of
returning the set of added-line anchors. -/
theorem c2_context_line_attribute_error :
    get_valid_diff_lines ctxDiffText =
      Except.error "AttributeError: Line object has no attribute is_modified" ∧
    lineIsAddedOrModified (DiffLine.mk LineType.context "keep" (some 1) (some 1)) =
      Except.error "AttributeError: Line object has no attribute is_modified" := by
  constructor <;> decide

/-- Claim C10 (code bug): the guard is undefined on every line that is not
tagged added — on a diff with a removed line, evaluating it raises an
AttributeError, so `get_valid_diff_lines` does not terminate normally. -/
theorem c10_removed_line_attribute_error :
    get_valid_diff_lines remDiffText =
      Except.error "AttributeError: Line object has no attribute is_modified" ∧
    lineIsAddedOrModified (DiffLine.mk LineType.removed "old" (some 1) none) =
      Except.error "AttributeError: Line object has no attribute is_modified" := by
  constructor <;> decide

/-- Claim C8, counterexample: on an unparseable diff the Diff Indexer does
not return the empty anchor set. -/
theorem c8_counterexample :
    get_valid_diff_lines badHunkLineDiffText ≠
      Except.ok (∅ : Finset (String × Option Nat)) := by
  decide

/-- Claim C8, amended: on unparseable diff input the Diff Indexer raises —
the parse error of the diff library propagates to the caller instead of
yielding an empty anchor set. -/
theorem c8_amended :
    get_valid_diff_lines badHunkLineDiffText =
      Except.error "Hunk diff line expected: garbage" ∧
    get_valid_diff_lines orphanHunkDiffText =
      Except.error "Unexpected hunk found: @@ -1 +1 @@" := by
  constructor <;> decide

/- == Orchestrator claim =================================================== -/

theorem inferStatus_pass_or_fail (a : List Char) :
    inferStatus a = "PASS" ∨ inferStatus a = "FAIL" := by
  unfold inferStatus
  dsimp only
  split <;> simp

theorem parseStatusLine_pass_or_fail (s : String) :
    (parseStatusLine s).2 = "PASS" ∨ (parseStatusLine s).2 = "FAIL" := by
  unfold parseStatusLine
  dsimp only
  split
  · exact inferStatus_pass_or_fail _
  · split
    · split
      · simp
      · split <;> simp
    · exact inferStatus_pass_or_fail _

/-- Claim C9: whatever the five inputs and whatever the outcome of the
model call, the orchestrator returns a pair whose status component is the
string PASS or the string FAIL; and for a whitespace-only diff, an empty
credential, or a provider other than the two supported ones it returns the
corresponding descriptive error message paired with FAIL. -/
theorem c9_status (diff_content ai_provider api_key model_name api_base_url : String)
    (response : HttpOutcome) :
    ((analyze_merge_issues diff_content ai_provider api_key model_name api_base_url
        response).2 = "PASS" ∨
     (analyze_merge_issues diff_content ai_provider api_key model_name api_base_url
        response).2 = "FAIL") ∧
    (pyStrip diff_content.data = [] →
      analyze_merge_issues diff_content ai_provider api_key model_name api_base_url
        response = ("Error: No branch differences provided for analysis.", "FAIL")) ∧
    (pyStrip diff_content.data ≠ [] → api_key = "" →
      analyze_merge_issues diff_content ai_provider api_key model_name api_base_url
        response = ("Error: API key for " ++ ai_provider ++
          " not provided. Please set the \x27ai_api_key\x27 input.", "FAIL")) ∧
    (pyStrip diff_content.data ≠ [] → api_key ≠ "" →
      (ai_provider.data.map Char.toLower).asString ≠ "gemini" →
      (ai_provider.data.map Char.toLower).asString ≠ "openai" →
      analyze_merge_issues diff_content ai_provider api_key model_name api_base_url
        response = ("Error: Unsupported AI provider \x27" ++ ai_provider ++
          "\x27. Supported providers are \x27gemini\x27, \x27openai\x27.", "FAIL")) := by
  refine ⟨?_, ?_, ?_, ?_⟩
  · unfold analyze_merge_issues
    dsimp only
    split
    · simp
    · split
      · simp
      · split
        · split
          · simp
          · split
            · simp
            · split
              · simp
              · split
                · simp
                · split
                  · simp
                  · split
                    · exact parseStatusLine_pass_or_fail _
                    · simp
        · simp
  · intro h
    unfold analyze_merge_issues
    rw [if_pos h]
  · intro h1 h2
    unfold analyze_merge_issues
    rw [if_neg h1, if_pos h2]
  · intro h1 h2 h3 h4
    unfold analyze_merge_issues
    rw [if_neg h1, if_neg h2]
    dsimp only
    rw [if_neg (fun hor => hor.elim h3 h4)]

/-- Claim C9, witness: the empty-diff and unsupported-provider branches at
concrete inputs. -/
theorem c9_status_witness :
    analyze_merge_issues "" "gemini" "k" "m" "" (HttpOutcome.exn "boom") =
      ("Error: No branch differences provided for analysis.", "FAIL") ∧
    analyze_merge_issues "d" "claude" "k" "m" "" (HttpOutcome.exn "boom") =
      ("Error: Unsupported AI provider \x27claude\x27. Supported providers are " ++
        "\x27gemini\x27, \x27openai\x27.", "FAIL") :=
  ⟨(c9_status "" "gemini" "k" "m" "" (HttpOutcome.exn "boom")).2.1 (by decide),
   (c9_status "d" "claude" "k" "m" "" (HttpOutcome.exn "boom")).2.2.2 (by decide)
     (by decide) (by decide) (by decide)⟩
